import Mathlib

/-!
Shallow embedding of the client-side data-synchronization core of the
financial_advisor_frontend repository: the search overlay's paginated
result fetcher with duplicate suppression (src/components/SearchModal.tsx),
the news feed's fetcher, scroll trigger and status-polling loop
(src/app/page.tsx), and the publisher list's fetcher and scroll trigger
(src/app/publishers/page.tsx).  Machine state is React component state,
modelled as explicit records; each async handler is split into the
synchronous mutation performed before its awaited network call and the
mutation performed when the response (success or failure) arrives.
-/

namespace FAF

/-- A news item as declared by the NewsItem interface shared by
SearchModal.tsx and page.tsx: `id`, `title` and `status` are required
strings, the remaining fields optional. -/
structure NewsItem where
  id : String
  title : String
  thumbnail : Option String
  status : String
  published_at : Option String
  author : Option String
  content : Option String
deriving Repr, DecidableEq

/-- The backend pagination envelope `{page, size, total, total_pages}`. -/
structure PageMeta where
  page : Nat
  size : Nat
  total : Nat
  total_pages : Nat
deriving Repr, DecidableEq

/-- Outcome of one awaited fetch of a listing endpoint: `ok` carries the
response body's `data` array and optional `pagination`; `err` covers both
a non-2xx response and a thrown transport error (the two take the same
branch in every handler modelled here). -/
inductive FetchOutcome where
  | ok (data : List NewsItem) (meta : Option PageMeta)
  | err
deriving Repr, DecidableEq

/-- Model of JavaScript's `String.prototype.trim`: strip whitespace from
both ends.  (Defined over the character list so that it reduces inside
the kernel; `String.trim` of the standard library is extensionally the
same function but does not reduce.) -/
def jsTrim (s : String) : String :=
  ⟨((s.data.dropWhile Char.isWhitespace).reverse.dropWhile Char.isWhitespace).reverse⟩

/-- JavaScript truthiness of an optional string: `undefined` and the empty
string are falsy. -/
def truthyOpt : Option String → Bool
  | some s => s ≠ ""
  | none => false

/-- JavaScript `a || b` on an optional string and a fallback. -/
def orFalsy (a b : Option String) : Option String :=
  if truthyOpt a then a else b

/-! ## Search overlay (SearchModal.tsx) -/

/-- Per-instance state of the search overlay that the fetch, debounce and
scroll handlers read and write (SearchModal.tsx lines 32-41). -/
structure SearchState where
  results : List NewsItem
  loading : Bool
  loadingMore : Bool
  currentPage : Nat
  hasMore : Bool
  meta : Option PageMeta
deriving Repr, DecidableEq

/-- The page size fixed at `useState(30)` in SearchModal.tsx. -/
def searchPageSize : Nat := 30

/-- Duplicate-suppressing append of `fetchResults` (SearchModal.tsx lines
170-174): build the set of truthy identifiers already present, keep only
incoming items whose identifier is truthy and not in that set, and
concatenate them after the existing results. -/
def appendResults (prev newResults : List NewsItem) : List NewsItem :=
  let existingIds := (prev.map (·.id)).filter (· ≠ "")
  prev ++ newResults.filter (fun item => item.id ≠ "" && !existingIds.contains item.id)

/-- Synchronous prefix of `fetchResults` before its awaited call
(SearchModal.tsx lines 132-139), for a non-empty trimmed query: an append
marks the loading-more indicator; a fresh fetch marks the primary
indicator and clears results, metadata, and resets `hasMore` to true. -/
def fetchResultsBusy (append : Bool) (s : SearchState) : SearchState :=
  if append then { s with loadingMore := true }
  else { s with loading := true, results := [], meta := none, hasMore := true }

/-- Completion of `fetchResults` (SearchModal.tsx lines 157-200): on
success set `hasMore` iff the page is non-empty, merge or replace the
results, store the response metadata and the requested page number; on
failure a non-append fetch clears results and metadata and drops
`hasMore`, an append fetch leaves them untouched; the `finally` block
clears both busy indicators on every success path and every failure
path — no exception escapes the handler. -/
def fetchResultsComplete (page : Nat) (append : Bool) (outcome : FetchOutcome)
    (s : SearchState) : SearchState :=
  match outcome with
  | .ok data meta =>
    let s := { s with hasMore := !data.isEmpty }
    let s := if append then { s with results := appendResults s.results data }
             else { s with results := data }
    { s with meta := meta, currentPage := page, loading := false, loadingMore := false }
  | .err =>
    let s := if append then s
             else { s with results := [], meta := none, hasMore := false }
    { s with loading := false, loadingMore := false }

/-- Whole `fetchResults(keywords, page, append)` run against a single
awaited outcome (SearchModal.tsx lines 124-201): a query that is empty
after trimming short-circuits (clear results and metadata, reset
`hasMore`, no request); otherwise the busy prefix then the completion. -/
def fetchResults (keywords : String) (page : Nat) (append : Bool)
    (outcome : FetchOutcome) (s : SearchState) : SearchState :=
  if jsTrim keywords = "" then { s with results := [], meta := none, hasMore := true }
  else fetchResultsComplete page append outcome (fetchResultsBusy append s)

/-- Split a character list into maximal non-whitespace runs, the
accumulator holding the (reversed) run in progress. -/
def splitWsAux : List Char → List Char → List String
  | [], acc => if acc.isEmpty then [] else [⟨acc.reverse⟩]
  | c :: rest, acc =>
    if c.isWhitespace then
      if acc.isEmpty then splitWsAux rest []
      else ⟨acc.reverse⟩ :: splitWsAux rest []
    else splitWsAux rest (c :: acc)

/-- Tokenization used by `fetchSuggestions` and `fetchResults`
(SearchModal.tsx lines 98-103 and 144-149): trim the query, split it on
runs of whitespace (the regular expression `\s+`), and keep only truthy
(non-empty) tokens — the `forEach` appends a `keywords` parameter only
for truthy entries. -/
def tokenize (keywords : String) : List String :=
  splitWsAux (jsTrim keywords).data []

/-- Scroll geometry read from the container or document on a scroll
event. Values are integers; the JavaScript subtractions are exact. -/
structure ScrollMetrics where
  scrollTop : Int
  scrollHeight : Int
  clientHeight : Int
deriving Repr, DecidableEq

/-- Guard of the search overlay's `handleScroll` (SearchModal.tsx lines
234-243): within 100 units of the bottom, no primary load in flight, no
load-more in flight, more expected, and a non-empty result list. -/
def searchShouldLoadMore (m : ScrollMetrics) (s : SearchState) : Bool :=
  (m.scrollHeight - m.scrollTop ≤ m.clientHeight + 100) &&
  !s.loading && !s.loadingMore && s.hasMore && decide (0 < s.results.length)

/-- The search overlay's `handleScroll` (SearchModal.tsx lines 232-247):
when the guard holds it requests page `currentPage + 1` as an append
fetch; it performs no state write of its own — `currentPage` is written
only inside `fetchResultsComplete` on a successful response. -/
def searchHandleScroll (m : ScrollMetrics) (s : SearchState) : Option Nat :=
  if searchShouldLoadMore m s then some (s.currentPage + 1) else none

/-! ## Debounce controller (SearchModal.tsx `handleSearch`) -/

/-- State touched by the debounce controller: the query text, the
suggestion and result lists it clears on empty input, the pending
`setTimeout` handle modelled as the scheduled (deadline, query) pair, and
the trace of suggestion requests that have actually fired, in order. -/
structure DebounceState where
  searchQuery : String
  suggestions : List String
  results : List NewsItem
  pendingTimer : Option (Int × String)
  fired : List String
deriving Repr, DecidableEq

/-- The 100-time-unit quiescence delay of SearchModal.tsx line 220. -/
def debounceDelay : Int := 100

/-- Body of `handleSearch(query)` run at time `now` (SearchModal.tsx lines
203-221): store the query, cancel any pending timer, then either clear
suggestions and results immediately (query empty after trimming, nothing
scheduled) or schedule a suggestion fetch for `now + debounceDelay`. -/
def handleSearchAt (now : Int) (query : String) (s : DebounceState) : DebounceState :=
  let s := { s with searchQuery := query, pendingTimer := none }
  if jsTrim query = "" then { s with suggestions := [], results := [] }
  else { s with pendingTimer := some (now + debounceDelay, query) }

/-- Event-loop step at time `now`: a pending timer whose deadline has been
reached fires, appending its query to the request trace. -/
def deliverDueTimer (now : Int) (s : DebounceState) : DebounceState :=
  match s.pendingTimer with
  | some (deadline, q) =>
    if deadline ≤ now then { s with pendingTimer := none, fired := s.fired ++ [q] }
    else s
  | none => s

/-- A keystroke observed at time `now`: any due timer fires first, then
`handleSearch` runs. -/
def keystroke (now : Int) (query : String) (s : DebounceState) : DebounceState :=
  handleSearchAt now query (deliverDueTimer now s)

/-- Run a sequence of timed keystrokes left to right. -/
def runKeystrokes : List (Int × String) → DebounceState → DebounceState
  | [], s => s
  | (t, q) :: rest, s => runKeystrokes rest (keystroke t q s)

/-- After typing goes quiescent past the deadline, the pending timer (if
any) fires. -/
def flushTimer (s : DebounceState) : DebounceState :=
  match s.pendingTimer with
  | some (_, q) => { s with pendingTimer := none, fired := s.fired ++ [q] }
  | none => s

/-- Debounce state of a freshly opened overlay: empty query, nothing
pending, nothing fired. -/
def initDebounce : DebounceState :=
  { searchQuery := "", suggestions := [], results := [], pendingTimer := none, fired := [] }

/-- Consecutive keystrokes each land strictly within the debounce delay of
the previous one. -/
def gapsOk : List (Int × String) → Prop
  | (t₁, _) :: (t₂, q₂) :: rest => t₂ < t₁ + debounceDelay ∧ gapsOk ((t₂, q₂) :: rest)
  | _ => True

instance : DecidablePred gapsOk := fun l => by
  induction l with
  | nil => exact .isTrue trivial
  | cons a rest ih =>
    cases rest with
    | nil => exact .isTrue trivial
    | cons b rest2 => exact @instDecidableAnd _ _ inferInstance ih

/-! ## News feed (src/app/page.tsx) -/

/-- Per-instance state of the news feed read and written by `fetchNews`,
`handleScroll` and the polling loop (page.tsx lines 32-50).  `meta` is
initialized to a concrete record (never null), so the `pagination &&`
truthiness test of `handleScroll` always passes; `navError` records that
the handler routed to the error page. -/
structure HomeState where
  news : List NewsItem
  initialLoading : Bool
  searching : Bool
  loadingMore : Bool
  page : Nat
  meta : PageMeta
  navError : Bool
deriving Repr, DecidableEq

/-- Synchronous prefix of `fetchNews` before its awaited call (page.tsx
lines 63-69): exactly one of the three busy indicators is set. -/
def fetchNewsBusy (isInitial append : Bool) (s : HomeState) : HomeState :=
  if isInitial then { s with initialLoading := true }
  else if append then { s with loadingMore := true }
  else { s with searching := true }

/-- Completion of `fetchNews` (page.tsx lines 96-120): on success an
append concatenates the incoming page verbatim — no duplicate filtering —
while a fresh fetch replaces the list; metadata updates when present and
all indicators clear. On any failure (non-2xx or thrown) the handler
routes to the error page and returns: nothing else changes and no busy
indicator is cleared. -/
def fetchNewsComplete (append : Bool) (outcome : FetchOutcome) (s : HomeState) : HomeState :=
  match outcome with
  | .ok data meta =>
    let s := if append then { s with news := s.news ++ data }
             else { s with news := data }
    let s := match meta with
             | some m => { s with meta := m }
             | none => s
    { s with initialLoading := false, searching := false, loadingMore := false }
  | .err => { s with navError := true }

/-- Whole `fetchNews` run against one awaited outcome. -/
def fetchNews (isInitial append : Bool) (outcome : FetchOutcome) (s : HomeState) : HomeState :=
  fetchNewsComplete append outcome (fetchNewsBusy isInitial append s)

/-- The news feed's `handleScroll` (page.tsx lines 136-155): gated on the
three busy indicators and on `news.length < pagination.total` (there is
no `hasMore` flag and no non-empty-result-set test); within 300 units of
the bottom it computes `nextPage = page + 1`, writes it to state
immediately — at request time, before `fetchNews` is awaited — and issues
the append request for it.  Returns the requested page (if any) and the
post-handler state. -/
def homeHandleScroll (m : ScrollMetrics) (s : HomeState) : Option Nat × HomeState :=
  if !s.initialLoading && !s.searching && !s.loadingMore
      && decide (s.news.length < s.meta.total) then
    if m.scrollTop + m.clientHeight ≥ m.scrollHeight - 300 then
      (some (s.page + 1), { s with page := s.page + 1 })
    else (none, s)
  else (none, s)

/-! ## Polling state machine (page.tsx `checkNewsStatus` / `startPollingNewsStatus`) -/

/-- Outcome of one awaited `GET /news/{id}` poll call: `ok` carries the
response body's `data` item; `err` covers a non-2xx response and a thrown
transport error alike (both leave `checkNewsStatus` returning the pending
sentinel). -/
inductive PollOutcome where
  | ok (item : NewsItem)
  | err
deriving Repr, DecidableEq

/-- The in-place patch of the matching entry (page.tsx lines 170-180):
`id` and `status` are taken from the response directly; `title`,
`thumbnail`, `published_at`, `author` and `content` fall back to the
entry's existing value when the response's value is falsy (absent or
empty). -/
def patchEntry (upd item : NewsItem) : NewsItem :=
  { id := upd.id
    title := if upd.title = "" then item.title else upd.title
    thumbnail := orFalsy upd.thumbnail item.thumbnail
    status := upd.status
    published_at := orFalsy upd.published_at item.published_at
    author := orFalsy upd.author item.author
    content := orFalsy upd.content item.content }

/-- `checkNewsStatus(newsId)` against one awaited outcome (page.tsx lines
158-190): on a successful response whose status differs from the pending
sentinel "added", map over the list patching every entry whose `id`
matches and return the new status; otherwise (status still "added",
non-2xx, or a thrown error) leave the list untouched and return
"added". Returns the updated list and the returned status string. -/
def checkNewsStatus (newsId : String) (outcome : PollOutcome)
    (news : List NewsItem) : List NewsItem × String :=
  match outcome with
  | .ok upd =>
    if upd.status ≠ "added" then
      (news.map (fun item => if item.id = newsId then patchEntry upd item else item),
       upd.status)
    else (news, "added")
  | .err => (news, "added")

/-- The retry budget `maxPolls = 12` of page.tsx line 201. -/
def maxPolls : Nat := 12

/-- The tick interval of page.tsx line 214: 5000 ms, i.e. 5 time units of
1000 ms. -/
def pollIntervalMs : Nat := 5000

/-- A live poll session as kept by `startPollingNewsStatus`: the polled
identifier, the tick counter `pollCount`, and whether the repeating timer
is still installed. -/
structure PollSession where
  newsId : String
  pollCount : Nat
  active : Bool
deriving Repr, DecidableEq

/-- Starting a session for `newsId` (page.tsx lines 193-218): counter at
zero, timer installed. -/
def startPollSession (newsId : String) : PollSession :=
  { newsId := newsId, pollCount := 0, active := true }

/-- One interval tick (page.tsx lines 203-214): increment `pollCount`,
await `checkNewsStatus`, and clear the interval exactly when the returned
status differs from "added" or the budget `maxPolls` is reached. -/
def pollTick (sess : PollSession) (outcome : PollOutcome)
    (news : List NewsItem) : PollSession × List NewsItem :=
  let count := sess.pollCount + 1
  let r := checkNewsStatus sess.newsId outcome news
  if r.2 ≠ "added" ∨ count ≥ maxPolls then
    ({ sess with pollCount := count, active := false }, r.1)
  else
    ({ sess with pollCount := count }, r.1)

/-- Run a session against a script of poll outcomes, one per tick, until
the timer is cleared or the script is exhausted. -/
def runPoll (sess : PollSession) (news : List NewsItem) :
    List PollOutcome → PollSession × List NewsItem
  | [] => (sess, news)
  | outcome :: rest =>
    if sess.active then
      let r := pollTick sess outcome news
      runPoll r.1 r.2 rest
    else (sess, news)

/-! ## Publisher list (src/app/publishers/page.tsx) -/

/-- A publisher as declared by the Publisher interface. -/
structure Publisher where
  id : String
  name : String
  description : String
  domain : String
  website : Option String
deriving Repr, DecidableEq

/-- Outcome of one awaited `GET /publishers` fetch. -/
inductive PubFetchOutcome where
  | ok (data : List Publisher) (meta : Option PageMeta)
  | err
deriving Repr, DecidableEq

/-- Per-instance state of the publisher list (publishers/page.tsx lines
28-33). Its `meta` starts as null, so the `pagination &&` guard of its
scroll handler is a real test. -/
structure PubState where
  publishers : List Publisher
  loading : Bool
  loadingMore : Bool
  currentPage : Nat
  meta : Option PageMeta
  navError : Bool
deriving Repr, DecidableEq

/-- Completion of `fetchPublishers` (publishers/page.tsx lines 56-78): on
success an append concatenates the incoming page verbatim — no duplicate
filtering — a fresh fetch replaces; `currentPage` is written only here,
on success; on failure the handler routes to the error page and returns,
clearing nothing. -/
def fetchPublishersComplete (page : Nat) (append : Bool) (outcome : PubFetchOutcome)
    (s : PubState) : PubState :=
  match outcome with
  | .ok data meta =>
    { s with publishers := if append then s.publishers ++ data else data,
             meta := meta, currentPage := page, loading := false, loadingMore := false }
  | .err => { s with navError := true }

/-- The publisher list's `handleScroll` (publishers/page.tsx lines 82-99):
gated on the two busy indicators, a non-null metadata record, and
`publishers.length < pagination.total`; within 300 units of the bottom it
requests `currentPage + 1` as an append, performing no state write of its
own. -/
def pubHandleScroll (m : ScrollMetrics) (s : PubState) : Option Nat :=
  match s.meta with
  | some meta =>
    if !s.loading && !s.loadingMore && decide (s.publishers.length < meta.total) then
      if m.scrollTop + m.clientHeight ≥ m.scrollHeight - 300 then
        some (s.currentPage + 1)
      else none
    else none
  | none => none

/-! ## Auxiliary definitions and concrete scenarios -/

/-- The status string carried by one poll outcome as `checkNewsStatus`
reports it: the response's `status` on success, the pending sentinel
"added" on any failure. -/
def outcomeStatus : PollOutcome → String
  | .ok upd => upd.status
  | .err => "added"

/-- Initial state of a freshly opened search overlay (SearchModal.tsx
lines 34-41): empty results, no busy indicator, page 1, `hasMore` true,
no metadata. -/
def initSearchState : SearchState :=
  { results := [], loading := false, loadingMore := false,
    currentPage := 1, hasMore := true, meta := none }

/-- A synthetic backend item with identifier "id<i>". -/
def mkItem (i : Nat) : NewsItem :=
  { id := "id" ++ toString i, title := "t", thumbnail := none,
    status := "synced", published_at := none, author := none, content := none }

/-- Page 1 of the C7 scenario: 30 items with distinct identifiers. -/
def pageOne : List NewsItem := (List.range 30).map mkItem

/-- Page 2 of the C7 scenario: 5 further items, identifiers disjoint from
page 1. -/
def pageTwo : List NewsItem := (List.range 5).map (fun i => mkItem (30 + i))

/-- Scroll geometry at the very bottom of the container. -/
def bottomMetrics : ScrollMetrics :=
  { scrollTop := 1000, scrollHeight := 1200, clientHeight := 800 }

/-- Overlay state after the fresh search `fetchResults("election fraud",
1, false)` completes with the 30 items of page 1. -/
def scenarioAfterPageOne : SearchState :=
  fetchResults "election fraud" 1 false (.ok pageOne none) initSearchState

/-- Overlay state after the scroll-triggered `fetchResults("election
fraud", 2, true)` completes with the 5 items of page 2. -/
def scenarioFinal : SearchState :=
  fetchResults "election fraud" 2 true (.ok pageTwo none) scenarioAfterPageOne

/-- A just-created item as it sits in the feed while pending: status
"added". -/
def pendingItem : NewsItem :=
  { id := "n1", title := "queued article", thumbnail := none,
    status := "added", published_at := none, author := none, content := none }

/-- An unrelated feed entry that a poll tick must not touch. -/
def otherItem : NewsItem :=
  { id := "n2", title := "other article", thumbnail := none,
    status := "failed", published_at := none, author := none, content := none }

/-- The backend's final answer for the polled item: status "synced" with
the enriched fields filled in. -/
def syncedItem : NewsItem :=
  { id := "n1", title := "real title", thumbnail := some "thumb.jpg",
    status := "synced", published_at := some "2024-01-01T00:00:00Z",
    author := some "alice", content := some "body" }

/-- Scripted backend of the C3 scenario: "added" on ticks 1 through 11,
"synced" on tick 12. -/
def scriptedBackend : List PollOutcome :=
  List.replicate 11 (PollOutcome.ok pendingItem) ++ [PollOutcome.ok syncedItem]

/-- Result of running a full poll session for "n1" over the scripted
backend against a feed holding the pending item and one unrelated item. -/
def scriptedRun : PollSession × List NewsItem :=
  runPoll (startPollSession "n1") [pendingItem, otherItem] scriptedBackend

/-- A news-feed state with a loaded first page, idle indicators, and
metadata promising more rows than are loaded. -/
def homeIdleState : HomeState :=
  { news := [pendingItem], initialLoading := false, searching := false,
    loadingMore := false, page := 1,
    meta := { page := 1, size := 30, total := 5, total_pages := 1 },
    navError := false }

/-- A news-feed state identical to `homeIdleState` but with an empty
Result Set, while the metadata still reports five total rows. -/
def homeEmptyState : HomeState :=
  { homeIdleState with news := [] }

/-- Last element of a non-empty sequence given as head and tail: the
keystroke that ends a typing burst. -/
def lastOf (a : Int × String) : List (Int × String) → Int × String
  | [] => a
  | b :: rest => lastOf b rest

/-! ## Helper lemmas -/

/-- The `results` field produced by a successful append completion is the
duplicate-suppressing append. -/
theorem fetchResultsComplete_append_results (page : Nat) (data : List NewsItem)
    (meta : Option PageMeta) (s : SearchState) :
    (fetchResultsComplete page true (.ok data meta) s).results = appendResults s.results data := rfl

/-- Pre-filtering the incoming page down to its truthy-identifier items
does not change the appended result. -/
theorem appendResults_filter_truthy (prev data : List NewsItem) :
    appendResults prev (data.filter (fun item => item.id ≠ "")) = appendResults prev data := by
  unfold appendResults
  dsimp only
  congr 1
  rw [List.filter_filter]
  apply List.filter_congr
  intro a _
  by_cases h : a.id = "" <;> simp [h]

/-- The items gained by an append are exactly the filtered incoming page. -/
theorem appendResults_drop (prev data : List NewsItem) :
    (appendResults prev data).drop prev.length
      = data.filter
          (fun item => item.id ≠ "" && !((prev.map (·.id)).filter (· ≠ "")).contains item.id) := by
  unfold appendResults
  exact List.drop_left _ _

/-! ## Claims -/

/-- C1: for every completed (successful) result fetch in the search flow,
`hasMore` is false iff the fetched page's item sequence is empty: a
non-empty page leaves it true, an empty page leaves it false
(SearchModal.tsx lines 162-166). -/
theorem hasMore_false_iff_page_empty (keywords : String) (page : Nat) (append : Bool)
    (data : List NewsItem) (meta : Option PageMeta) (s : SearchState)
    (hkw : jsTrim keywords ≠ "") :
    ((fetchResults keywords page append (.ok data meta) s).hasMore = false ↔ data = []) := by
  cases append <;>
    simp [fetchResults, hkw, fetchResultsComplete, fetchResultsBusy, List.isEmpty_iff]

/-- Witness for C1: a concrete successful fetch of an empty page. -/
theorem hasMore_false_iff_page_empty_witness :
    (jsTrim "news" ≠ "") ∧
      ((fetchResults "news" 1 false (.ok [] none) initSearchState).hasMore = false ↔
        ([] : List NewsItem) = []) :=
  ⟨by decide,
   hasMore_false_iff_page_empty "news" 1 false [] none initSearchState (by decide)⟩

/-- C10: an append fetch in the search overlay silently drops every
incoming item whose identifier is falsy (absent or empty) — even a
non-duplicate — so pre-filtering the page to its truthy-identifier items
changes nothing, and every item the Result Set gains carries a truthy
identifier (SearchModal.tsx lines 170-174). -/
theorem append_drops_falsy_identifiers (page : Nat) (data : List NewsItem)
    (meta : Option PageMeta) (s : SearchState) :
    (fetchResultsComplete page true (.ok data meta) s).results
        = (fetchResultsComplete page true
            (.ok (data.filter (fun item => item.id ≠ "")) meta) s).results
    ∧ ∀ item ∈ (fetchResultsComplete page true (.ok data meta) s).results.drop s.results.length,
        item.id ≠ "" := by
  constructor
  · rw [fetchResultsComplete_append_results, fetchResultsComplete_append_results]
    exact (appendResults_filter_truthy s.results data).symm
  · intro item hmem
    rw [fetchResultsComplete_append_results, appendResults_drop] at hmem
    have h := (List.mem_filter.1 hmem).2
    simp at h
    exact h.1

/-- Witness for C10: a concrete appended item with a truthy identifier. -/
theorem append_drops_falsy_identifiers_witness :
    otherItem ∈ (fetchResultsComplete 2 true (.ok [otherItem] none)
        initSearchState).results.drop initSearchState.results.length
    ∧ otherItem.id ≠ "" :=
  ⟨by decide,
   (append_drops_falsy_identifiers 2 [otherItem] none initSearchState).2 otherItem (by decide)⟩

/-- C9: a poll tick is frame-safe: the list length is preserved, every
position holding an entry whose identifier differs from the polled one is
unchanged, and when the fetched status is "added" or the lookup failed
the whole list is unchanged (page.tsx lines 158-190). -/
theorem poll_tick_frame (newsId : String) (outcome : PollOutcome) (news : List NewsItem) :
    (checkNewsStatus newsId outcome news).1.length = news.length
    ∧ (∀ i : Nat, (news[i]?.all (fun item => item.id ≠ newsId)) = true →
        (checkNewsStatus newsId outcome news).1[i]? = news[i]?)
    ∧ (∀ upd, outcome = .ok upd → upd.status = "added" →
        (checkNewsStatus newsId outcome news).1 = news)
    ∧ (outcome = .err → (checkNewsStatus newsId outcome news).1 = news) := by
  refine ⟨?_, ?_, ?_, ?_⟩
  · cases outcome with
    | err => rfl
    | ok upd =>
      by_cases h : upd.status = "added"
      · simp [checkNewsStatus, h]
      · simp [checkNewsStatus, h]
  · intro i hi
    cases outcome with
    | err => rfl
    | ok upd =>
      by_cases h : upd.status = "added"
      · simp [checkNewsStatus, h]
      · simp only [checkNewsStatus, h, ne_eq, not_false_iff, if_true, List.getElem?_map]
        cases hx : news[i]? with
        | none => rfl
        | some item =>
          rw [hx] at hi
          simp only [Option.all_some, decide_eq_true_eq] at hi
          simp [hi]
  · intro upd hout h
    subst hout
    simp [checkNewsStatus, h]
  · intro hout
    subst hout
    rfl

/-- Witness for C9: the entry with the non-matching identifier is
untouched by a successful status fetch. -/
theorem poll_tick_frame_witness :
    (([pendingItem, otherItem] : List NewsItem)[1]?.all (fun item => item.id ≠ "n1")) = true
    ∧ (checkNewsStatus "n1" (.ok syncedItem) [pendingItem, otherItem]).1[1]?
        = ([pendingItem, otherItem] : List NewsItem)[1]? :=
  ⟨by decide,
   (poll_tick_frame "n1" (.ok syncedItem) [pendingItem, otherItem]).2.1 1 (by decide)⟩

/-- C8: when a poll tick succeeds with status different from the pending
sentinel "added", every matching entry is patched field by field — `id`
and `status` from the response, `title`, `thumbnail`, `published_at`,
`author` and `content` falling back to the entry's existing value when
the response's value is falsy/absent — and the session terminates with
its interval timer cleared (page.tsx lines 168-181 and 209-213). -/
theorem poll_success_patches_and_terminates (sess : PollSession) (upd : NewsItem)
    (news : List NewsItem) (h : upd.status ≠ "added") :
    (pollTick sess (.ok upd) news).1.active = false
    ∧ ∀ (i : Nat) (old : NewsItem), news[i]? = some old → old.id = sess.newsId →
        (pollTick sess (.ok upd) news).2[i]?
          = some { id := upd.id,
                   title := if upd.title = "" then old.title else upd.title,
                   thumbnail := orFalsy upd.thumbnail old.thumbnail,
                   status := upd.status,
                   published_at := orFalsy upd.published_at old.published_at,
                   author := orFalsy upd.author old.author,
                   content := orFalsy upd.content old.content } := by
  constructor
  · simp [pollTick, checkNewsStatus, h]
  · intro i old hmem hid
    simp only [pollTick, checkNewsStatus, h, ne_eq, not_false_iff, if_true, true_or, ite_true]
    rw [List.getElem?_map, hmem]
    simp [patchEntry, hid]

/-- Witness for C8: the pending entry is patched by the synced response
and the session goes inactive. -/
theorem poll_success_patches_and_terminates_witness :
    (pollTick (startPollSession "n1") (.ok syncedItem) [pendingItem]).1.active = false
    ∧ (pollTick (startPollSession "n1") (.ok syncedItem) [pendingItem]).2[0]?
        = some { id := syncedItem.id,
                 title := if syncedItem.title = "" then pendingItem.title else syncedItem.title,
                 thumbnail := orFalsy syncedItem.thumbnail pendingItem.thumbnail,
                 status := syncedItem.status,
                 published_at := orFalsy syncedItem.published_at pendingItem.published_at,
                 author := orFalsy syncedItem.author pendingItem.author,
                 content := orFalsy syncedItem.content pendingItem.content } :=
  ⟨(poll_success_patches_and_terminates (startPollSession "n1") syncedItem [pendingItem]
      (by decide)).1,
   (poll_success_patches_and_terminates (startPollSession "n1") syncedItem [pendingItem]
      (by decide)).2 0 pendingItem (by decide) (by decide)⟩

/-- C2 counterexample: the news feed's append fetch performs no duplicate
filtering (page.tsx line 106): appending a page whose single item's
identifier is already present grows the Result Set and leaves the same
identifier in it twice, refuting the claim for the news-feed instance. -/
theorem news_feed_append_duplicates :
    homeIdleState.news.length = 1
    ∧ (∀ item ∈ ([pendingItem] : List NewsItem), item.id ∈ homeIdleState.news.map (·.id))
    ∧ (fetchNews false true (.ok [pendingItem] none) homeIdleState).news.length = 2
    ∧ ¬ ((fetchNews false true (.ok [pendingItem] none) homeIdleState).news.map (·.id)).Nodup := by
  refine ⟨rfl, by decide, rfl, by decide⟩

/-- C4 counterexample: the news feed's scroll trigger fires with an empty
Result Set (it only checks `news.length < pagination.total`) and advances
its stored page at request time, before any response (page.tsx lines
137-152), refuting the claim's non-empty condition and its
update-only-after-success clause for the news-feed instance. -/
theorem news_feed_scroll_fires_empty_and_eager :
    homeEmptyState.news = []
    ∧ homeEmptyState.page = 1
    ∧ (homeHandleScroll bottomMetrics homeEmptyState).1 = some 2
    ∧ (homeHandleScroll bottomMetrics homeEmptyState).2.page = 2 := by
  refine ⟨rfl, rfl, by decide, by decide⟩

/-- C6 counterexample: on a failed fetch the news feed routes to the
error page and returns early (page.tsx lines 98-101 and 117-120): an
append failure leaves the loading-more indicator set (not cleared), and a
non-append failure leaves the Result Set untouched (not cleared),
refuting the claim for the news-feed instance. -/
theorem news_feed_failure_leaves_indicator :
    (fetchNews false true .err homeIdleState).loadingMore = true
    ∧ homeIdleState.news ≠ []
    ∧ (fetchNews false false .err homeIdleState).news = homeIdleState.news := by
  refine ⟨by decide, by decide, rfl⟩

/-- C7 counterexample: after the scroll-triggered page-2 fetch returns 5
items, the code sets `hasMore` to true — the page was non-empty
(SearchModal.tsx lines 162-166) — so the scenario ends with
`hasMore = true`, not false as claimed. -/
theorem scenario_hasMore_true_not_false :
    scenarioFinal.results.length = 35 ∧ scenarioFinal.hasMore ≠ false := by
  refine ⟨by decide, by decide⟩

/-- C2 amended: duplicate suppression holds in the search overlay —
appending a page whose identifiers all already occur leaves the Result
Set literally unchanged, and appending a page with no-duplicate
identifiers to a no-duplicate Result Set keeps identifiers unique —
while the news feed and the publisher list concatenate incoming pages
verbatim, with no duplicate filtering. -/
theorem append_dedup_search_only :
    (∀ (page : Nat) (data : List NewsItem) (meta : Option PageMeta) (s : SearchState),
        (∀ item ∈ data, item.id ∈ s.results.map (·.id)) →
        (fetchResultsComplete page true (.ok data meta) s).results = s.results)
    ∧ (∀ (page : Nat) (data : List NewsItem) (meta : Option PageMeta) (s : SearchState),
        (s.results.map (·.id)).Nodup → (data.map (·.id)).Nodup →
        ((fetchResultsComplete page true (.ok data meta) s).results.map (·.id)).Nodup)
    ∧ (∀ (data : List NewsItem) (meta : Option PageMeta) (s : HomeState),
        (fetchNewsComplete true (.ok data meta) s).news = s.news ++ data)
    ∧ (∀ (page : Nat) (data : List Publisher) (meta : Option PageMeta) (s : PubState),
        (fetchPublishersComplete page true (.ok data meta) s).publishers
          = s.publishers ++ data) := by
  refine ⟨?_, ?_, ?_, ?_⟩
  · intro page data meta s hsub
    rw [fetchResultsComplete_append_results]
    unfold appendResults
    dsimp only
    rw [List.filter_eq_nil_iff.2, List.append_nil]
    intro item hitem
    by_cases hid : item.id = ""
    · simp [hid]
    · obtain ⟨x, hxmem, hxid⟩ := List.mem_map.1 (hsub item hitem)
      simp [hid]
      exact ⟨x, hxmem, hxid⟩
  · intro page data meta s hprev hdata
    rw [fetchResultsComplete_append_results]
    unfold appendResults
    dsimp only
    rw [List.map_append, List.nodup_append]
    refine ⟨hprev, ?_, ?_⟩
    · exact hdata.sublist (List.Sublist.map _ (List.filter_sublist data))
    · intro x hx hx2
      obtain ⟨item, hitem, rfl⟩ := List.mem_map.1 hx2
      have hp := (List.mem_filter.1 hitem).2
      simp at hp
      obtain ⟨x0, hx0mem, hx0id⟩ := List.mem_map.1 hx
      rcases hp.2 with hall | hempty
      · exact hall x0 hx0mem hx0id
      · exact hp.1 hempty
  · intro data meta s
    cases meta <;> rfl
  · intro page data meta s
    rfl

/-- Witness for C2 amended: re-appending an item of page 1 to the overlay
leaves its Result Set unchanged. -/
theorem append_dedup_search_only_witness :
    (fetchResultsComplete 2 true (.ok [mkItem 0] none) scenarioAfterPageOne).results
      = scenarioAfterPageOne.results :=
  append_dedup_search_only.1 2 [mkItem 0] none scenarioAfterPageOne (by decide)

/-- C6 amended: the failure policy claimed holds for the search overlay's
`fetchResults`: a failed non-append fetch clears the Result Set and the
metadata and sets `hasMore` false; a failed append fetch leaves the
Result Set untouched; both clear the busy indicators, and the handler is
total — no exception reaches the caller.  (The news feed instead
redirects to the error route on failure, clearing nothing.) -/
theorem search_failure_policy (keywords : String) (page : Nat) (append : Bool)
    (s : SearchState) (hkw : jsTrim keywords ≠ "") :
    (fetchResults keywords page append .err s).loading = false
    ∧ (fetchResults keywords page append .err s).loadingMore = false
    ∧ (append = true → (fetchResults keywords page append .err s).results = s.results)
    ∧ (append = false →
        (fetchResults keywords page append .err s).results = []
        ∧ (fetchResults keywords page append .err s).meta = none
        ∧ (fetchResults keywords page append .err s).hasMore = false) := by
  cases append <;>
    simp [fetchResults, hkw, fetchResultsComplete, fetchResultsBusy]

/-- Witness for C6 amended: a concrete failing append leaves the loaded
page intact. -/
theorem search_failure_policy_witness :
    (jsTrim "news" ≠ "")
    ∧ (fetchResults "news" 2 true .err scenarioAfterPageOne).results
        = scenarioAfterPageOne.results :=
  ⟨by decide,
   (search_failure_policy "news" 2 true scenarioAfterPageOne (by decide)).2.2.1 rfl⟩

/-- C7 amended: the query "election fraud" tokenizes to
`["election", "fraud"]`; after the fresh page-1 fetch returns 30 items the
scroll trigger requests page 2, and the append of 5 further items yields
35 unique items — but `hasMore` ends `true`, because the last fetched
page was non-empty (the code only drops `hasMore` on an empty page). -/
theorem scenario_election_fraud :
    tokenize "election fraud" = ["election", "fraud"]
    ∧ searchHandleScroll bottomMetrics scenarioAfterPageOne = some 2
    ∧ scenarioFinal.results.length = 35
    ∧ (scenarioFinal.results.map (·.id)).Nodup
    ∧ scenarioFinal.hasMore = true := by
  refine ⟨by decide, by decide, by decide, by decide, by decide⟩

/-- C4 amended: the search overlay's scroll trigger fires exactly when
the distance to the bottom is within the 100-unit threshold, neither busy
indicator is set, `hasMore` holds, and the Result Set is non-empty; every
firing requests `currentPage + 1`, and `currentPage` is written neither
by the trigger nor by the busy prefix nor by a failed completion — only
by a successful completion, which sets it to the requested page.  The
publisher list likewise requests `currentPage + 1` and updates
`currentPage` only on success.  (The news feed differs — see the
counterexample.) -/
theorem scroll_trigger_conditions :
    (∀ (m : ScrollMetrics) (s : SearchState),
        searchHandleScroll m s = some (s.currentPage + 1)
          ↔ (m.scrollHeight - m.scrollTop ≤ m.clientHeight + 100
              ∧ s.loading = false ∧ s.loadingMore = false ∧ s.hasMore = true
              ∧ 0 < s.results.length))
    ∧ (∀ (m : ScrollMetrics) (s : SearchState) (p : Nat),
        searchHandleScroll m s = some p → p = s.currentPage + 1)
    ∧ (∀ (append : Bool) (s : SearchState),
        (fetchResultsBusy append s).currentPage = s.currentPage)
    ∧ (∀ (page : Nat) (append : Bool) (s : SearchState),
        (fetchResultsComplete page append .err s).currentPage = s.currentPage)
    ∧ (∀ (page : Nat) (append : Bool) (data : List NewsItem) (meta : Option PageMeta)
        (s : SearchState),
        (fetchResultsComplete page append (.ok data meta) s).currentPage = page)
    ∧ (∀ (m : ScrollMetrics) (s : PubState) (p : Nat),
        pubHandleScroll m s = some p → p = s.currentPage + 1)
    ∧ (∀ (page : Nat) (append : Bool) (s : PubState),
        (fetchPublishersComplete page append .err s).currentPage = s.currentPage) := by
  refine ⟨?_, ?_, ?_, ?_, ?_, ?_, ?_⟩
  · intro m s
    constructor
    · intro h
      by_cases g : searchShouldLoadMore m s = true
      · unfold searchShouldLoadMore at g
        simp only [Bool.and_eq_true, Bool.not_eq_true', decide_eq_true_eq] at g
        exact ⟨g.1.1.1.1, g.1.1.1.2, g.1.1.2, g.1.2, g.2⟩
      · rw [searchHandleScroll, if_neg g] at h
        cases h
    · intro hc
      have g : searchShouldLoadMore m s = true := by
        unfold searchShouldLoadMore
        simp only [Bool.and_eq_true, Bool.not_eq_true', decide_eq_true_eq]
        exact ⟨⟨⟨⟨hc.1, hc.2.1⟩, hc.2.2.1⟩, hc.2.2.2.1⟩, hc.2.2.2.2⟩
      rw [searchHandleScroll, if_pos g]
  · intro m s p h
    rw [searchHandleScroll] at h
    by_cases g : searchShouldLoadMore m s = true
    · rw [if_pos g] at h
      exact (Option.some.inj h).symm
    · rw [if_neg g] at h
      cases h
  · intro append s
    cases append <;> rfl
  · intro page append s
    cases append <;> rfl
  · intro page append data meta s
    cases append <;> rfl
  · intro m s p h
    unfold pubHandleScroll at h
    split at h
    · split at h
      · split at h
        · exact (Option.some.inj h).symm
        · cases h
      · cases h
    · cases h
  · intro page append s
    rfl

/-- Witness for C4 amended: with page 1 loaded the trigger requests page
2 = currentPage + 1. -/
theorem scroll_trigger_conditions_witness :
    (2 : Nat) = scenarioAfterPageOne.currentPage + 1 :=
  scroll_trigger_conditions.2.1 bottomMetrics scenarioAfterPageOne 2 (by decide)

/-- A pending timer that is not yet due does not fire. -/
theorem deliverDueTimer_not_due (t : Int) (s : DebounceState)
    (hp : ∀ d q0, s.pendingTimer = some (d, q0) → t < d) :
    deliverDueTimer t s = s := by
  cases hps : s.pendingTimer with
  | none => simp [deliverDueTimer, hps]
  | some dq =>
    obtain ⟨d, q0⟩ := dq
    have hd := hp d q0 hps
    simp [deliverDueTimer, hps, not_le.2 hd]

/-- Firing a pending timer appends its query to the request trace. -/
theorem flushTimer_fired_of_pending (st : DebounceState) (d : Int) (q : String)
    (h : st.pendingTimer = some (d, q)) :
    (flushTimer st).fired = st.fired ++ [q] := by
  unfold flushTimer
  rw [h]

/-- Through a burst of keystrokes each strictly within the debounce delay
of the previous one, no scheduled callback ever fires, and afterwards the
pending timer is exactly the one scheduled by the last keystroke (none if
its text trims to empty). -/
theorem runKeystrokes_burst (rest : List (Int × String)) :
    ∀ (t : Int) (q : String) (s : DebounceState),
      gapsOk ((t, q) :: rest) →
      (∀ d q0, s.pendingTimer = some (d, q0) → t < d) →
      (runKeystrokes ((t, q) :: rest) s).fired = s.fired
      ∧ (runKeystrokes ((t, q) :: rest) s).pendingTimer
          = (if jsTrim (lastOf (t, q) rest).2 = "" then none
             else some ((lastOf (t, q) rest).1 + debounceDelay, (lastOf (t, q) rest).2)) := by
  induction rest with
  | nil =>
    intro t q s hg hp
    simp only [runKeystrokes, keystroke, deliverDueTimer_not_due t s hp, lastOf]
    unfold handleSearchAt
    by_cases hq : jsTrim q = "" <;> simp [hq]
  | cons b rest ih =>
    intro t q s hg hp
    obtain ⟨tb, qb⟩ := b
    have hgap : tb < t + debounceDelay := hg.1
    have hstep : runKeystrokes ((t, q) :: (tb, qb) :: rest) s
        = runKeystrokes ((tb, qb) :: rest) (handleSearchAt t q s) := by
      simp only [runKeystrokes, keystroke, deliverDueTimer_not_due t s hp]
    have hp' : ∀ d q0, (handleSearchAt t q s).pendingTimer = some (d, q0) → tb < d := by
      intro d q0 hd
      unfold handleSearchAt at hd
      by_cases hq : jsTrim q = ""
      · simp [hq] at hd
      · simp [hq, Prod.ext_iff] at hd
        obtain ⟨h1, _⟩ := hd
        omega
    have hfired : (handleSearchAt t q s).fired = s.fired := by
      unfold handleSearchAt
      by_cases hq : jsTrim q = "" <;> simp [hq]
    have hrec := ih tb qb (handleSearchAt t q s) hg.2 hp'
    rw [hstep]
    exact ⟨hrec.1.trans hfired, hrec.2⟩

/-- C5: for a burst of keystrokes each issued strictly within the
100-unit debounce delay of the previous one, with the final text
non-empty after trimming, exactly one suggestion request fires, carrying
the last keystroke's text; and a keystroke whose text trims to empty
clears suggestions and results immediately and schedules no callback
(SearchModal.tsx lines 203-221). -/
theorem debounce_single_request (first : Int × String) (rest : List (Int × String))
    (hgaps : gapsOk (first :: rest))
    (hlast : jsTrim (lastOf first rest).2 ≠ "") :
    (flushTimer (runKeystrokes (first :: rest) initDebounce)).fired
        = [(lastOf first rest).2]
    ∧ (∀ (now : Int) (q : String) (s : DebounceState), jsTrim q = "" →
        (handleSearchAt now q s).suggestions = []
        ∧ (handleSearchAt now q s).results = []
        ∧ (handleSearchAt now q s).pendingTimer = none) := by
  constructor
  · obtain ⟨t, q⟩ := first
    have h := runKeystrokes_burst rest t q initDebounce hgaps
      (by intro d q0 hd; cases hd)
    have hpend : (runKeystrokes ((t, q) :: rest) initDebounce).pendingTimer
        = some ((lastOf (t, q) rest).1 + debounceDelay, (lastOf (t, q) rest).2) := by
      rw [h.2, if_neg hlast]
    rw [flushTimer_fired_of_pending _ _ _ hpend, h.1]
    rfl
  · intro now q s hq
    unfold handleSearchAt
    simp [hq]

/-- Witness for C5: two keystrokes 50 time units apart fire exactly one
request, carrying the second text. -/
theorem debounce_single_request_witness :
    gapsOk [((0 : Int), "el"), ((50 : Int), "ele")]
    ∧ jsTrim (lastOf ((0 : Int), "el") [((50 : Int), "ele")]).2 ≠ ""
    ∧ (flushTimer (runKeystrokes [((0 : Int), "el"), ((50 : Int), "ele")]
          initDebounce)).fired
        = [(lastOf ((0 : Int), "el") [((50 : Int), "ele")]).2] :=
  ⟨by decide, by decide,
   (debounce_single_request (0, "el") [(50, "ele")] (by decide) (by decide)).1⟩

/-- A session whose timer is already cleared ignores the rest of the
script. -/
theorem runPoll_inactive (sess : PollSession) (news : List NewsItem)
    (script : List PollOutcome) (h : sess.active = false) :
    runPoll sess news script = (sess, news) := by
  cases script with
  | nil => rfl
  | cons outcome rest => simp [runPoll, h]

/-- The status a tick reports depends only on the poll outcome. -/
theorem checkNewsStatus_snd (newsId : String) (outcome : PollOutcome)
    (news : List NewsItem) :
    (checkNewsStatus newsId outcome news).2 = outcomeStatus outcome := by
  cases outcome with
  | err => rfl
  | ok upd =>
    by_cases h : upd.status = "added"
    · simp [checkNewsStatus, h, outcomeStatus]
    · simp [checkNewsStatus, h, outcomeStatus]

/-- A tick always increments the counter by exactly one. -/
theorem pollTick_count (sess : PollSession) (outcome : PollOutcome)
    (news : List NewsItem) :
    (pollTick sess outcome news).1.pollCount = sess.pollCount + 1 := by
  unfold pollTick
  dsimp only
  split <;> rfl

/-- If the session is still live after a tick, the counter is below the
budget. -/
theorem pollTick_active_lt (sess : PollSession) (outcome : PollOutcome)
    (news : List NewsItem) :
    (pollTick sess outcome news).1.active = true → sess.pollCount + 1 < maxPolls := by
  unfold pollTick
  dsimp only
  split
  · intro hcontra
    cases hcontra
  · rename_i hcond
    intro _
    rw [not_or] at hcond
    omega

/-- The tick counter never exceeds the budget. -/
theorem runPoll_pollCount_le (script : List PollOutcome) :
    ∀ (sess : PollSession) (news : List NewsItem),
      sess.pollCount ≤ maxPolls →
      (sess.active = true → sess.pollCount < maxPolls) →
      (runPoll sess news script).1.pollCount ≤ maxPolls := by
  induction script with
  | nil => intro sess news h1 _; exact h1
  | cons outcome rest ih =>
    intro sess news h1 h2
    by_cases ha : sess.active = true
    · have hlt := h2 ha
      simp only [runPoll]
      rw [if_pos ha]
      refine ih _ _ ?_ ?_
      · rw [pollTick_count]; omega
      · intro hact
        rw [pollTick_count]
        exact pollTick_active_lt sess outcome news hact
    · simp only [runPoll]
      rw [if_neg ha]
      exact h1

/-- A live session stops on the tick consuming the first script entry
whose reported status is not "added", provided the budget allows reaching
it: the counter ends exactly there and the timer is cleared. -/
theorem runPoll_first_nonadded (k : Nat) :
    ∀ (script : List PollOutcome) (sess : PollSession) (news : List NewsItem),
      sess.active = true →
      ∀ (hk : k < script.length),
      (∀ (j : Nat) (hj : j < script.length), j < k →
          outcomeStatus (script.get ⟨j, hj⟩) = "added") →
      outcomeStatus (script.get ⟨k, hk⟩) ≠ "added" →
      sess.pollCount + (k + 1) ≤ maxPolls →
      (runPoll sess news script).1.pollCount = sess.pollCount + (k + 1)
      ∧ (runPoll sess news script).1.active = false := by
  induction k with
  | zero =>
    intro script sess news ha hk hbefore hne hbud
    cases script with
    | nil => exact absurd hk (by simp)
    | cons outcome rest =>
      have hne0 : outcomeStatus outcome ≠ "added" := by simpa using hne
      have hstop : ((checkNewsStatus sess.newsId outcome news).2 ≠ "added"
          ∨ sess.pollCount + 1 ≥ maxPolls) := by
        left
        rw [checkNewsStatus_snd]
        exact hne0
      have h1 : (pollTick sess outcome news).1
          = { sess with pollCount := sess.pollCount + 1, active := false } := by
        unfold pollTick
        dsimp only
        rw [if_pos hstop]
      have hrun : runPoll sess news (outcome :: rest)
          = (runPoll (pollTick sess outcome news).1 (pollTick sess outcome news).2 rest) := by
        simp only [runPoll]
        rw [if_pos ha]
      rw [hrun, h1, runPoll_inactive _ _ rest rfl]
      exact ⟨rfl, rfl⟩
  | succ k ih =>
    intro script sess news ha hk hbefore hne hbud
    cases script with
    | nil => exact absurd hk (by simp)
    | cons outcome rest =>
      have h0 : outcomeStatus outcome = "added" :=
        hbefore 0 (by simp) (Nat.succ_pos k)
      have hkr : k < rest.length := by simpa using hk
      have hcont : ¬((checkNewsStatus sess.newsId outcome news).2 ≠ "added"
          ∨ sess.pollCount + 1 ≥ maxPolls) := by
        rw [checkNewsStatus_snd, h0]
        push_neg
        exact ⟨rfl, by omega⟩
      have htick1 : (pollTick sess outcome news).1
          = { sess with pollCount := sess.pollCount + 1 } := by
        unfold pollTick
        dsimp only
        rw [if_neg hcont]
      have hrun : runPoll sess news (outcome :: rest)
          = runPoll (pollTick sess outcome news).1 (pollTick sess outcome news).2 rest := by
        simp only [runPoll]
        rw [if_pos ha]
      have hbefore' : ∀ (j : Nat) (hj : j < rest.length), j < k →
          outcomeStatus (rest.get ⟨j, hj⟩) = "added" := by
        intro j hj hjk
        have := hbefore (j + 1) (by simpa using Nat.succ_lt_succ hj) (Nat.succ_lt_succ hjk)
        simpa using this
      have hne' : outcomeStatus (rest.get ⟨k, hkr⟩) ≠ "added" := by simpa using hne
      have hrec := ih rest { sess with pollCount := sess.pollCount + 1 }
          (pollTick sess outcome news).2 ha hkr hbefore' hne' (by simp; omega)
      rw [hrun, htick1]
      refine ⟨?_, hrec.2⟩
      rw [hrec.1]
      simp
      omega

/-- C3: the poll budget is 12 ticks at 5000 ms intervals; a session never
exceeds 12 ticks; it stops exactly on the first tick whose fetched status
differs from "added" when that tick is within the budget; and against the
scripted backend answering "added" on ticks 1-11 and "synced" on tick 12,
the session ends precisely at tick 12 with the matching item patched to
"synced" (page.tsx lines 193-218). -/
theorem poll_session_budget (nid : String) (news : List NewsItem)
    (script : List PollOutcome) :
    maxPolls = 12 ∧ pollIntervalMs = 5 * 1000
    ∧ (runPoll (startPollSession nid) news script).1.pollCount ≤ maxPolls
    ∧ (∀ (k : Nat) (hk : k < script.length),
        (∀ (j : Nat) (hj : j < script.length), j < k →
            outcomeStatus (script.get ⟨j, hj⟩) = "added") →
        outcomeStatus (script.get ⟨k, hk⟩) ≠ "added" →
        k + 1 ≤ maxPolls →
        (runPoll (startPollSession nid) news script).1.pollCount = k + 1
        ∧ (runPoll (startPollSession nid) news script).1.active = false)
    ∧ scriptedRun.1.pollCount = 12
    ∧ scriptedRun.1.active = false
    ∧ scriptedRun.2.map (·.status) = ["synced", "failed"] := by
  refine ⟨rfl, rfl, ?_, ?_, by decide, by decide, by decide⟩
  · exact runPoll_pollCount_le script _ news (Nat.zero_le _)
      (fun _ => by simp [startPollSession, maxPolls])
  · intro k hk hbefore hne hbud
    have h := runPoll_first_nonadded k script (startPollSession nid) news rfl hk
      hbefore hne (by simpa [startPollSession] using hbud)
    refine ⟨?_, h.2⟩
    rw [h.1]
    simp [startPollSession]

/-- Witness for C3: a failed first tick counts as "added", and the
session stops on the second tick, whose status is "synced". -/
theorem poll_session_budget_witness :
    (runPoll (startPollSession "w1") [] [PollOutcome.err, PollOutcome.ok syncedItem]).1.pollCount
        = 1 + 1
    ∧ (runPoll (startPollSession "w1") [] [PollOutcome.err, PollOutcome.ok syncedItem]).1.active
        = false :=
  (poll_session_budget "w1" [] [PollOutcome.err, PollOutcome.ok syncedItem]).2.2.2.1 1
    (by decide)
    (by intro j hj hjlt
        have hj0 : j = 0 := by omega
        subst hj0
        rfl)
    (by decide)
    (by decide)

end FAF
